import Mathlib

/-!
# StatMiner core verification

A shallow embedding of the StatMiner data-aggregation core: the source
adapters (Census, FRED, World Bank), the aggregation validator, the
multi-source query router and the multi-provider chat dispatcher, together
with theorems settling the specified properties.

JavaScript scalar values are modelled by an explicit `Cell` type; the host
conversions `Number(...)`, `parseInt(...)`, `String.replace`, substring
`includes` and URL form-encoding are modelled as executable Lean functions
over rationals, integers and character lists.
-/

namespace StatMiner

/-- A JavaScript numeric value other than NaN: a finite rational or a signed
infinity. Produced by the model of `Number(...)`. -/
inductive JsNum where
  | finite (q : ℚ)
  | posInf
  | negInf
  deriving Repr, DecidableEq

/-- A JavaScript scalar as it occurs in a normalized data row: string,
number, NaN, null or undefined. -/
inductive Cell where
  | str (s : String)
  | num (n : JsNum)
  | nan
  | null
  | undef
  deriving Repr, DecidableEq

/-- Value of a single digit character in the given base, if valid. -/
def digitVal? (base : Nat) (c : Char) : Option Nat :=
  let v :=
    if '0' ≤ c && c ≤ '9' then some (c.toNat - 48)
    else if 'a' ≤ c && c ≤ 'f' then some (c.toNat - 87)
    else if 'A' ≤ c && c ≤ 'F' then some (c.toNat - 55)
    else none
  match v with
  | some d => if d < base then some d else none
  | none => none

/-- Accumulating value of a digit string in the given base; `none` when a
character is not a digit of that base. The empty list yields the
accumulator. -/
def digitsValAux (base : Nat) (acc : Nat) : List Char → Option Nat
  | [] => some acc
  | c :: cs =>
    match digitVal? base c with
    | some d => digitsValAux base (acc * base + d) cs
    | none => none

/-- Value of a nonempty digit string in the given base; `none` when empty or
when a character is invalid. -/
def digitsVal? (base : Nat) (cs : List Char) : Option Nat :=
  if cs.isEmpty then none else digitsValAux base 0 cs

/-- Value of a decimal digit string (assumed all digits). -/
def decDigitsVal (cs : List Char) : Nat :=
  cs.foldl (fun acc c => acc * 10 + (c.toNat - 48)) 0

/-- The mantissa part of a JavaScript decimal numeric literal:
`digits [. digits]` with at least one digit overall. -/
def decMantissa? (cs : List Char) : Option ℚ :=
  let ip := cs.takeWhile Char.isDigit
  let rest := cs.dropWhile Char.isDigit
  match rest with
  | [] => if ip.isEmpty then none else some (decDigitsVal ip : ℚ)
  | '.' :: fp =>
    if fp.all Char.isDigit && !(ip.isEmpty && fp.isEmpty) then
      some ((decDigitsVal ip : ℚ) + (decDigitsVal fp : ℚ) / (10 : ℚ) ^ fp.length)
    else none
  | _ => none

/-- The exponent part of a JavaScript decimal numeric literal:
an optional sign followed by at least one digit. -/
def decExp? : List Char → Option Int
  | '+' :: ds => if ds.all Char.isDigit && !ds.isEmpty then some (decDigitsVal ds : Int) else none
  | '-' :: ds => if ds.all Char.isDigit && !ds.isEmpty then some (-(decDigitsVal ds : Int)) else none
  | ds => if ds.all Char.isDigit && !ds.isEmpty then some (decDigitsVal ds : Int) else none

/-- A JavaScript decimal numeric literal: mantissa with optional
`e`/`E`-exponent. -/
def decLiteral? (cs : List Char) : Option ℚ :=
  let mant := cs.takeWhile (fun c => c ≠ 'e' && c ≠ 'E')
  let rest := cs.dropWhile (fun c => c ≠ 'e' && c ≠ 'E')
  match rest with
  | [] => decMantissa? mant
  | _ :: es =>
    match decMantissa? mant, decExp? es with
    | some m, some e => some (m * (10 : ℚ) ^ e)
    | _, _ => none

/-- An unsigned JavaScript numeric literal: hexadecimal, octal or binary
radix form, else a decimal literal. -/
def unsignedNumber? (cs : List Char) : Option ℚ :=
  match cs with
  | '0' :: 'x' :: ds => (digitsVal? 16 ds).map (fun n => (n : ℚ))
  | '0' :: 'X' :: ds => (digitsVal? 16 ds).map (fun n => (n : ℚ))
  | '0' :: 'o' :: ds => (digitsVal? 8 ds).map (fun n => (n : ℚ))
  | '0' :: 'O' :: ds => (digitsVal? 8 ds).map (fun n => (n : ℚ))
  | '0' :: 'b' :: ds => (digitsVal? 2 ds).map (fun n => (n : ℚ))
  | '0' :: 'B' :: ds => (digitsVal? 2 ds).map (fun n => (n : ℚ))
  | _ => decLiteral? cs

/-- A signed JavaScript numeric literal after an explicit `+` or `-`:
`Infinity` or a decimal literal (radix forms may not be signed). -/
def signedNumber? (cs : List Char) (neg : Bool) : Option JsNum :=
  if cs = "Infinity".data then some (if neg then .negInf else .posInf)
  else (decLiteral? cs).map (fun q => .finite (if neg then -q else q))

/-- Model of the JavaScript `Number(string)` conversion: trims whitespace,
maps the empty string to `0`, parses signed decimal literals, `Infinity`
and unsigned radix literals; `none` models NaN. -/
def jsNumber? (s : String) : Option JsNum :=
  let t := ((s.data.dropWhile Char.isWhitespace).reverse.dropWhile Char.isWhitespace).reverse
  match t with
  | [] => some (.finite 0)
  | '+' :: rest => signedNumber? rest false
  | '-' :: rest => signedNumber? rest true
  | _ =>
    if t = "Infinity".data then some .posInf
    else (unsignedNumber? t).map .finite

/-- Model of JavaScript `parseInt(string)` with no radix argument: trims
leading whitespace, reads an optional sign, a `0x`/`0X` hex marker, then the
longest run of valid digits; `none` models NaN. -/
def jsParseInt? (s : String) : Option Int :=
  let t := s.data.dropWhile Char.isWhitespace
  let sgn :=
    match t with
    | '+' :: r => (false, r)
    | '-' :: r => (true, r)
    | r => (false, r)
  let rad :=
    match sgn.2 with
    | '0' :: 'x' :: r => (16, r)
    | '0' :: 'X' :: r => (16, r)
    | r => (10, r)
  let digs := rad.2.takeWhile (fun c => (digitVal? rad.1 c).isSome)
  if digs.isEmpty then none
  else
    let v := digs.foldl (fun acc c => acc * rad.1 + ((digitVal? rad.1 c).getD 0)) 0
    some (if sgn.1 then -(v : Int) else (v : Int))

/-- Index of the first occurrence of `pat` in a character list; the empty
pattern matches at index 0, as in JavaScript string search. -/
def firstIdx (pat : List Char) : List Char → Option Nat
  | [] => if pat.isEmpty then some 0 else none
  | c :: t => if List.isPrefixOf pat (c :: t) then some 0 else (firstIdx pat t).map (· + 1)

/-- Model of JavaScript `s.includes(sub)`: substring containment. -/
def jsIncludes (s sub : String) : Bool :=
  (firstIdx sub.data s.data).isSome

/-- Model of JavaScript `s.replace(pat, rep)` with a string pattern: only
the first occurrence is replaced, and an empty pattern inserts the
replacement at position 0. -/
def jsReplaceFirst (s pat rep : String) : String :=
  match firstIdx pat.data s.data with
  | none => s
  | some i => ⟨s.data.take i ++ rep.data ++ s.data.drop (i + pat.data.length)⟩

/-- Upper-case hexadecimal digit character for a value below 16. -/
def hexDigitChar (n : Nat) : Char :=
  if n < 10 then Char.ofNat (48 + n) else Char.ofNat (55 + n)

/-- Percent-encoding of one character under the
`application/x-www-form-urlencoded` serialization used by
`URLSearchParams`: alphanumerics and `*-._` are kept, space becomes `+`,
anything else is percent-encoded byte-wise from UTF-8. -/
def formEncodeChar (c : Char) : String :=
  if c.isAlphanum || c = '*' || c = '-' || c = '.' || c = '_' then String.singleton c
  else if c = ' ' then "+"
  else String.join (((String.singleton c).toUTF8.toList).map
    (fun b => "%" ++ String.singleton (hexDigitChar (b.toNat / 16))
      ++ String.singleton (hexDigitChar (b.toNat % 16))))

/-- `URLSearchParams` serialization of a whole value string. -/
def formEncode (s : String) : String :=
  String.join (s.data.map formEncodeChar)

/-- Model of the JavaScript `x || d` idiom on an optional string: the
default is taken when the value is absent or empty (falsy). -/
def jsOrString (v : Option String) (d : String) : String :=
  match v with
  | some s => if s.isEmpty then d else s
  | none => d

/-- Model of the JavaScript falsy test `!x` on an optional string: true when
the value is absent (undefined) or the empty string. -/
def jsFalsyString (v : Option String) : Bool :=
  match v with
  | some s => s.isEmpty
  | none => true

/-- A JavaScript error value as observed by a catch block: its `name`
(for example `AbortError`) and its `message`. -/
structure JsError where
  name : String
  message : String
  deriving Repr, DecidableEq

/-! ## Data model (`src/lib/data/sources/types.ts`) -/

/-- Freshness classification of a normalized result. -/
inductive Freshness where
  | realtime
  | daily
  | weekly
  | monthly
  | annual
  deriving Repr, DecidableEq

/-- Dataset category (`DataSourceCategory`). -/
inductive Category where
  | government
  | academic
  | financial
  | health
  | international
  deriving Repr, DecidableEq

/-- Dataset metadata (`DatasetInfo`). `lastUpdated` carries the raw source
timestamp string of the remote search reply, when present. -/
structure DatasetInfo where
  id : String
  name : String
  description : String
  source : String
  category : Category
  lastUpdated : Option String := none
  deriving Repr, DecidableEq

/-- One normalized data row: the ordered key/value assignments made by the
adapter when building the row object. -/
abbrev Row := List (String × Cell)

/-- The `metadata` part of a `DataResult`. Timestamps are epoch
milliseconds. `columns` is optional because the Census transform of an
empty payload leaves it undefined. -/
structure ResultMetadata where
  fetchedAt : Int
  rowCount : Int
  columns : Option (List String)
  freshness : Option Freshness
  sourceUrl : Option String
  deriving Repr, DecidableEq

/-- A normalized fetch result (`DataResult`). -/
structure DataResult where
  source : String
  dataset : String
  data : List Row
  metadata : ResultMetadata
  deriving Repr, DecidableEq

/-- One structural validation error (`{ path, message }`). -/
structure ValidationError where
  path : String
  message : String
  deriving Repr, DecidableEq

/-- The outcome of `validateDataResult` (`ValidationResult`). -/
structure ValidationResult where
  valid : Bool
  errors : List ValidationError
  warnings : List String
  data : Option DataResult
  deriving Repr, DecidableEq

/-- Milliseconds per day, the divisor of the freshness age computation. -/
def msPerDay : Int := 1000 * 60 * 60 * 24

/-- `validateDataResult`. The zod structural pass is modelled on the typed
value space: the only structurally invalid typed candidate is one whose
`metadata.columns` is undefined (the schema requires an array), which
short-circuits with no warnings. The semantic pass pushes a freshness
warning when `(now - fetchedAt) / 86400000 > 30` — equivalently, over the
rationals, `now - fetchedAt > 30 * 86400000` — and an empty-result warning
when there are no rows. -/
def validateDataResult (now : Int) (r : DataResult) : ValidationResult :=
  match r.metadata.columns with
  | none =>
    { valid := false, errors := [⟨"metadata.columns", "Required"⟩], warnings := [], data := none }
  | some _ =>
    let ageDays := (now - r.metadata.fetchedAt).fdiv msPerDay
    let warnings :=
      (if 30 * msPerDay < now - r.metadata.fetchedAt
        then ["Data is " ++ toString ageDays ++ " days old"] else [])
      ++ (if r.data.length = 0 then ["Query returned no results"] else [])
    { valid := true, errors := [], warnings := warnings, data := some r }

/-! ## Census adapter (`src/lib/data/sources/census.ts`) -/

/-- One Census cell: `isNaN(Number(value)) ? value : Number(value)`, with
`undefined` carried through when the row is shorter than the header row. -/
def censusCell : Option String → Cell
  | none => .undef
  | some v =>
    match jsNumber? v with
    | some n => .num n
    | none => .str v

/-- One Census row object: the header-indexed assignments of the
`headers.forEach` loop. -/
def censusRow (headers : List String) (row : List String) : Row :=
  headers.enum.map (fun ih => (ih.2, censusCell (row.get? ih.1)))

/-- The requested variable list: caller variables (or the default pair),
with `NAME` prepended when absent. -/
def censusVariables (vars : Option (List String)) : List String :=
  let vs := vars.getD ["B01001_001E", "NAME"]
  if vs.contains "NAME" then vs else "NAME" :: vs

/-- The Census request URL: base, year and dataset path, then the `get`,
`for` and optional `key` query parameters in `URLSearchParams`
serialization. -/
def censusFetchUrl (year datasetId : String) (vars : List String)
    (geography : String) (apiKey : Option String) : String :=
  "https://api.census.gov/data/" ++ year ++ "/" ++ datasetId ++ "?get="
    ++ formEncode (String.intercalate "," vars) ++ "&for=" ++ formEncode geography
    ++ (match apiKey with
        | some k => "&key=" ++ formEncode k
        | none => "")

/-- The stored source URL: `url.toString().replace(this.apiKey || '',
'[API_KEY]')`, with JavaScript replace semantics (first occurrence only;
an empty pattern inserts at position 0). -/
def censusSourceUrl (url : String) (apiKey : Option String) : String :=
  jsReplaceFirst url (apiKey.getD "") "[API_KEY]"

/-- The Census fetch transform: `const [headers, ...rows] = rawData`, rows
mapped to objects, metadata assembled. On an empty payload the header row
is undefined, no row is built and `columns` is undefined. -/
def censusTransform (now : Int) (datasetId url : String) (apiKey : Option String)
    (rawData : List (List String)) : DataResult :=
  match rawData with
  | [] =>
    { source := "census", dataset := datasetId, data := []
      metadata :=
        { fetchedAt := now, rowCount := 0, columns := none, freshness := some .annual
          sourceUrl := some (censusSourceUrl url apiKey) } }
  | headers :: rows =>
    let data := rows.map (censusRow headers)
    { source := "census", dataset := datasetId, data := data
      metadata :=
        { fetchedAt := now, rowCount := data.length, columns := some headers
          freshness := some .annual, sourceUrl := some (censusSourceUrl url apiKey) } }

/-! ## FRED adapter (`src/lib/data/sources/fred.ts`) -/

/-- The popular-series catalog `POPULAR_SERIES`: id, name, description. -/
def POPULAR_SERIES : List (String × String × String) :=
  [ ("GDP", "Gross Domestic Product", "US GDP in billions of dollars")
  , ("GDPC1", "Real GDP", "Real Gross Domestic Product, seasonally adjusted")
  , ("UNRATE", "Unemployment Rate", "Civilian unemployment rate")
  , ("CPIAUCSL", "Consumer Price Index", "CPI for All Urban Consumers")
  , ("FEDFUNDS", "Federal Funds Rate", "Effective Federal Funds Rate")
  , ("DGS10", "10-Year Treasury", "10-Year Treasury Constant Maturity Rate")
  , ("MORTGAGE30US", "30-Year Mortgage Rate", "30-Year Fixed Rate Mortgage Average")
  , ("DEXUSEU", "USD/EUR Exchange Rate", "US Dollar to Euro exchange rate")
  , ("SP500", "S&P 500", "S&P 500 Index")
  , ("PAYEMS", "Nonfarm Payrolls", "All Employees, Total Nonfarm")
  , ("HOUST", "Housing Starts", "New privately-owned housing units started")
  , ("RSXFS", "Retail Sales", "Advance Retail Sales: Retail and Food Services")
  , ("INDPRO", "Industrial Production", "Industrial Production Index")
  , ("M2SL", "M2 Money Supply", "M2 Money Stock")
  , ("PPIACO", "Producer Price Index", "Producer Price Index: All Commodities") ]

/-- The local FRED search fallback: case-insensitive substring match of the
query against catalog ids, names and descriptions. -/
def fredLocalSearch (q : String) : List DatasetInfo :=
  let lowerQuery := q.toLower
  (POPULAR_SERIES.filter (fun e =>
      jsIncludes e.1.toLower lowerQuery || jsIncludes e.2.1.toLower lowerQuery
        || jsIncludes e.2.2.toLower lowerQuery)).map
    (fun e =>
      { id := e.1, name := e.2.1, description := e.2.2, source := "fred"
        category := .financial })

/-- One series entry of the FRED remote search reply. -/
structure FredSeries where
  id : String
  title : String
  notes : Option String
  last_updated : String
  deriving Repr, DecidableEq

/-- The FRED remote search reply as observed by the adapter: HTTP success
flag and the optional `seriess` array of the JSON body. -/
structure FredSearchResp where
  ok : Bool
  seriess : Option (List FredSeries)
  deriving Repr, DecidableEq

/-- `FredDataSource.search`: a non-success status throws inside the try
block and a network failure rejects; both are caught and fall back to the
local catalog search. On success the `seriess` array (or `[]`) is mapped to
descriptors. -/
def fredSearch (remote : Except JsError FredSearchResp) (q : String) : List DatasetInfo :=
  match remote with
  | .error _ => fredLocalSearch q
  | .ok resp =>
    if resp.ok then
      (resp.seriess.getD []).map (fun series =>
        { id := series.id, name := series.title, description := series.notes.getD ""
          source := "fred", category := .financial
          lastUpdated := some series.last_updated })
    else fredLocalSearch q

/-- One FRED observation: its date and raw string value. -/
structure FredObs where
  date : String
  value : String
  deriving Repr, DecidableEq

/-- One FRED value cell: `obs.value === '.' ? null : Number(obs.value)`;
a non-numeric value other than `.` therefore becomes NaN. -/
def fredValueCell (v : String) : Cell :=
  if v = "." then .null
  else
    match jsNumber? v with
    | some n => .num n
    | none => .nan

/-- One FRED data row: date string, value cell, series id string. -/
def fredRow (seriesId : String) (obs : FredObs) : Row :=
  [("date", .str obs.date), ("value", fredValueCell obs.value), ("seriesId", .str seriesId)]

/-- `determineFreshness` on the optional `frequency_short` field; any
unexpected or absent code falls to the `monthly` default. -/
def determineFreshness (frequencyCode : Option String) : Freshness :=
  match frequencyCode with
  | some "D" => .daily
  | some "W" => .weekly
  | some "M" => .monthly
  | some "Q" => .monthly
  | some "A" => .annual
  | _ => .monthly

/-- The FRED fetch transform: observations (`rawData.observations || []`)
mapped to rows, metadata assembled. -/
def fredTransform (now : Int) (seriesId : String) (observations : List FredObs)
    (frequencyShort : Option String) : DataResult :=
  let data := observations.map (fredRow seriesId)
  { source := "fred", dataset := seriesId, data := data
    metadata :=
      { fetchedAt := now, rowCount := data.length
        columns := some ["date", "value", "seriesId"]
        freshness := some (determineFreshness frequencyShort)
        sourceUrl := some ("https://fred.stlouisfed.org/series/" ++ seriesId) } }

/-! ## World Bank adapter (`src/lib/data/sources/worldbank.ts`) -/

/-- The popular-indicator catalog `POPULAR_INDICATORS`: id, name,
description. -/
def POPULAR_INDICATORS : List (String × String × String) :=
  [ ("NY.GDP.MKTP.CD", "GDP (current US$)", "Gross Domestic Product at market prices")
  , ("NY.GDP.PCAP.CD", "GDP per capita (current US$)", "GDP divided by midyear population")
  , ("NY.GDP.MKTP.KD.ZG", "GDP growth (annual %)", "Annual GDP growth rate")
  , ("SP.POP.TOTL", "Population, total", "Total population count")
  , ("SP.POP.GROW", "Population growth (annual %)", "Annual population growth rate")
  , ("SL.UEM.TOTL.ZS", "Unemployment (% of labor force)", "Unemployment as % of total labor force")
  , ("FP.CPI.TOTL.ZG", "Inflation (consumer prices)", "Annual inflation rate")
  , ("SL.TLF.CACT.ZS", "Labor force participation rate", "Labor force as % of population 15+")
  , ("SE.ADT.LITR.ZS", "Literacy rate (% adults)", "Adult literacy rate, ages 15+")
  , ("SP.DYN.LE00.IN", "Life expectancy at birth", "Total life expectancy in years")
  , ("SH.XPD.CHEX.PC.CD", "Health expenditure per capita", "Current health expenditure per capita in USD")
  , ("SE.XPD.TOTL.GD.ZS", "Education expenditure (% of GDP)", "Government expenditure on education")
  , ("EG.USE.ELEC.KH.PC", "Electric power consumption", "Electric power consumption per capita (kWh)")
  , ("EN.ATM.CO2E.PC", "CO2 emissions per capita", "CO2 emissions in metric tons per capita")
  , ("SI.POV.DDAY", "Poverty headcount ratio", "Population below $2.15/day (2017 PPP)") ]

/-- The local World Bank search fallback: case-insensitive substring match
of the query against catalog ids, names and descriptions. -/
def wbLocalSearch (q : String) : List DatasetInfo :=
  let lowerQuery := q.toLower
  (POPULAR_INDICATORS.filter (fun e =>
      jsIncludes e.1.toLower lowerQuery || jsIncludes e.2.1.toLower lowerQuery
        || jsIncludes e.2.2.toLower lowerQuery)).map
    (fun e =>
      { id := e.1, name := e.2.1, description := e.2.2, source := "worldbank"
        category := .international })

/-- One indicator entry of the World Bank remote search reply. -/
structure WBIndicatorEntry where
  id : String
  name : String
  sourceNote : Option String
  deriving Repr, DecidableEq

/-- The World Bank remote search reply as observed by the adapter: HTTP
success flag and the second element of the JSON tuple when it is an
array (`none` models a missing or non-array second element). -/
structure WBSearchResp where
  ok : Bool
  data : Option (List WBIndicatorEntry)
  deriving Repr, DecidableEq

/-- `WorldBankDataSource.search`: a network failure is caught (with a
console warning) and a non-success status or a non-array body simply falls
through; all three cases use the local catalog search. -/
def wbSearch (remote : Except JsError WBSearchResp) (q : String) : List DatasetInfo :=
  match remote with
  | .error _ => wbLocalSearch q
  | .ok resp =>
    if resp.ok then
      match resp.data with
      | some inds =>
        inds.map (fun ind =>
          { id := ind.id, name := ind.name, description := ind.sourceNote.getD ""
            source := "worldbank", category := .international })
      | none => wbLocalSearch q
    else wbLocalSearch q

/-- A `{ id, value }` reference object of the World Bank payload, used for
both `country` and `indicator`. -/
structure WBRef where
  id : String
  value : String
  deriving Repr, DecidableEq

/-- One item of the World Bank observation payload. `value` is `none` when
the source value is null. -/
structure WBItem where
  country : WBRef
  countryiso3code : Option String
  date : String
  value : Option Cell
  indicator : WBRef
  deriving Repr, DecidableEq

/-- One World Bank data row: country name, iso3 code (falling back to the
country id when absent or empty), `parseInt` of the date, the non-null
value, and the indicator id and name. -/
def wbRow (item : WBItem) : Row :=
  [ ("country", .str item.country.value)
  , ("countryCode", .str (jsOrString item.countryiso3code item.country.id))
  , ("year", match jsParseInt? item.date with
      | some n => .num (.finite n)
      | none => .nan)
  , ("value", item.value.getD .null)
  , ("indicator", .str item.indicator.id)
  , ("indicatorName", .str item.indicator.value) ]

/-- The World Bank request URL (template string, no encoding). -/
def wbFetchUrl (indicatorId country dateRange : String) (perPage : Int) : String :=
  "https://api.worldbank.org/v2/country/" ++ country ++ "/indicator/" ++ indicatorId
    ++ "?format=json&per_page=" ++ toString perPage ++ "&date=" ++ dateRange

/-- The World Bank fetch transform: a missing or empty payload returns the
zero-row result (whose `sourceUrl` is the request URL and whose column list
lacks `indicatorName`); otherwise null-valued items are dropped and the
rest mapped to rows, with the public indicator page as `sourceUrl`. -/
def wbTransform (now : Int) (indicatorId url : String)
    (rawData : Option (List WBItem)) : DataResult :=
  match rawData with
  | none =>
    { source := "worldbank", dataset := indicatorId, data := []
      metadata :=
        { fetchedAt := now, rowCount := 0
          columns := some ["country", "countryCode", "year", "value", "indicator"]
          freshness := some .annual, sourceUrl := some url } }
  | some items =>
    if items.length = 0 then
      { source := "worldbank", dataset := indicatorId, data := []
        metadata :=
          { fetchedAt := now, rowCount := 0
            columns := some ["country", "countryCode", "year", "value", "indicator"]
            freshness := some .annual, sourceUrl := some url } }
    else
      let data := (items.filter (fun item => item.value.isSome)).map wbRow
      { source := "worldbank", dataset := indicatorId, data := data
        metadata :=
          { fetchedAt := now, rowCount := data.length
            columns := some ["country", "countryCode", "year", "value", "indicator", "indicatorName"]
            freshness := some .annual
            sourceUrl := some ("https://data.worldbank.org/indicator/" ++ indicatorId) } }

/-! ## Multi-source query router (`src/lib/data/sources/index.ts`) -/

/-- A source adapter as seen by the router: its search operation, which
either resolves with descriptors or rejects with an error. The concrete
`DATA_SOURCES` registry instantiates three such adapters; the router body
is uniform in the list it maps over. -/
structure SourceAdapter where
  search : String → Except JsError (List DatasetInfo)

/-- `searchAllSources`: one search per registered source joined with
`Promise.allSettled` (which preserves input order), keeping only fulfilled
results and flattening their values; rejected sources contribute
nothing. -/
def searchAllSources (registry : List SourceAdapter) (q : String) : List DatasetInfo :=
  (((registry.map (fun s => s.search q)).filterMap Except.toOption)).flatten

/-! ## Multi-provider dispatcher (`src/lib/hooks/useChat.ts`) -/

/-- The `metadata` part of a `BatchResponse`. -/
structure BatchMetadata where
  tokensUsed : Int
  responseTime : Int
  model : String
  cost : ℚ
  deriving Repr, DecidableEq

/-- One per-provider outcome of a dispatch (`BatchResponse`). -/
structure BatchResponse where
  providerId : String
  response : String
  metadata : BatchMetadata
  error : Option String
  deriving Repr, DecidableEq

/-- A successful `callProvider` resolution: content plus optional token
count, model name and cost. -/
structure CallSuccess where
  content : String
  tokensUsed : Option Int
  model : Option String
  cost : Option ℚ
  deriving Repr, DecidableEq

/-- The observable behaviour of one `callProvider` invocation: resolution
or rejection, together with the elapsed wall-clock time the caller
measures around it. -/
inductive CallResult where
  | ok (s : CallSuccess) (elapsed : Int)
  | err (e : JsError) (elapsed : Int)
  deriving Repr, DecidableEq

/-- The synthesized missing-credential outcome for a provider id. -/
def missingKeyResponse (p : String) : BatchResponse :=
  { providerId := p, response := ""
    metadata := { tokensUsed := 0, responseTime := 0, model := "", cost := 0 }
    error := some ("No API key configured for " ++ p) }

/-- The per-provider body of `sendMessage`: when the looked-up key is falsy
the missing-credential outcome is returned before `callProvider` is ever
invoked; otherwise the call (modelled by `env`) resolves to a success
outcome or its rejection is caught into a failure outcome that keeps only
the error message. -/
def dispatchOne (apiKeys : String → Option String) (env : String → CallResult)
    (p : String) : BatchResponse :=
  if jsFalsyString (apiKeys p) then missingKeyResponse p
  else
    match env p with
    | .ok s t =>
      { providerId := p, response := s.content
        metadata :=
          { tokensUsed := s.tokensUsed.getD 0, responseTime := t
            model := jsOrString s.model p, cost := s.cost.getD 0 }
        error := none }
    | .err e t =>
      { providerId := p, response := ""
        metadata := { tokensUsed := 0, responseTime := t, model := "", cost := 0 }
        error := some e.message }

/-- `sendMessage`: one per-provider task per requested id, joined with
`Promise.allSettled`. Every task fulfils (its body catches its own
rejection), so the fulfilled-only collection loop keeps one outcome per
requested id in request order. -/
def sendMessage (providers : List String) (apiKeys : String → Option String)
    (env : String → CallResult) : List BatchResponse :=
  providers.map (dispatchOne apiKeys env)

/-! ## Specification-side definitions -/

/-- Whether a looked-up cell counts as missing: absent, null, or the empty
string. -/
def cellMissing (c : Option Cell) : Bool :=
  match c with
  | none => true
  | some .null => true
  | some (.str s) => s.isEmpty
  | some _ => false

/-- Follows the words of the specification (the validator code has no
counterpart computation): the fraction of null or empty scalar cells taken
across all rows and declared columns. -/
def specMissingValueFraction (r : DataResult) : ℚ :=
  let cols := r.metadata.columns.getD []
  let total := r.data.length * cols.length
  let missing := (r.data.map (fun row =>
    (cols.filter (fun c => cellMissing (row.lookup c))).length)).sum
  if total = 0 then 0 else (missing : ℚ) / (total : ℚ)

/-! ## Concrete instances used by witnesses and counterexamples -/

/-- A structurally valid one-row result fetched at epoch time 0. -/
def freshExample : DataResult :=
  { source := "census", dataset := "acs/acs1"
    data := [[("NAME", .str "Alabama")]]
    metadata :=
      { fetchedAt := 0, rowCount := 1, columns := some ["NAME"]
        freshness := some .annual, sourceUrl := none } }

/-- A structurally valid one-row result in which one of the two declared
columns is null, a 50% missing-value rate. -/
def missingCellsExample : DataResult :=
  { source := "census", dataset := "acs/acs1"
    data := [[("NAME", .str "Alabama"), ("B01001_001E", Cell.null)]]
    metadata :=
      { fetchedAt := 0, rowCount := 1, columns := some ["NAME", "B01001_001E"]
        freshness := some .annual, sourceUrl := none } }

/-- The Census request URL of a default fetch with no API key supplied. -/
def censusNoKeyUrl : String :=
  censusFetchUrl "2022" "acs/acs1" (censusVariables none) "state:*" none

/-! ## Helper lemmas -/

/-- Every per-provider outcome carries the provider id it was requested
for. -/
theorem dispatchOne_providerId (apiKeys : String → Option String)
    (env : String → CallResult) (p : String) :
    (dispatchOne apiKeys env p).providerId = p := by
  simp only [dispatchOne, missingKeyResponse]
  split
  · rfl
  · cases env p <;> rfl

/-- Splitting a list of outcomes by presence of the error field counts
every entry exactly once. -/
theorem countP_error_split (l : List BatchResponse) :
    l.countP (fun r => r.error.isNone) + l.countP (fun r => r.error.isSome) = l.length := by
  induction l with
  | nil => rfl
  | cons h t ih =>
    simp only [List.countP_cons, List.length_cons]
    cases he : h.error <;> simp [he] <;> omega

/-- A freshness warning is never the empty-result warning. -/
theorem freshness_msg_ne_empty_msg (n : Int) :
    "Data is " ++ toString n ++ " days old" ≠ "Query returned no results" := by
  intro h
  have h' := congrArg String.data h
  rw [String.data_append, String.data_append] at h'
  have e1 : "Data is ".data = 'D' :: "ata is ".data := rfl
  have e2 : "Query returned no results".data = 'Q' :: "uery returned no results".data := rfl
  rw [e1, e2, List.cons_append, List.cons_append] at h'
  simp at h'

/-! ## Claims -/

/-- C1: a dispatch over provider ids `P` returns exactly one outcome per
requested provider id, in request order — success and failure are both
entries, never a missing entry — so the number of success outcomes plus
the number of failure outcomes equals `|P|`. -/
theorem sendMessage_one_outcome_per_provider (providers : List String)
    (apiKeys : String → Option String) (env : String → CallResult) :
    (sendMessage providers apiKeys env).map (fun r => r.providerId) = providers ∧
      (sendMessage providers apiKeys env).countP (fun r => r.error.isNone)
        + (sendMessage providers apiKeys env).countP (fun r => r.error.isSome)
        = providers.length := by
  constructor
  · simp only [sendMessage, List.map_map]
    have : ((fun r : BatchResponse => r.providerId) ∘ dispatchOne apiKeys env) = id := by
      funext p
      exact dispatchOne_providerId apiKeys env p
    rw [this, List.map_id]
  · have := countP_error_split (sendMessage providers apiKeys env)
    simpa [sendMessage, List.length_map] using this

/-- C2: a requested provider whose credential map entry is absent or empty
gets the synthesized missing-credential failure outcome, identically under
every provider behaviour — so the network call is never consulted for it —
and that outcome appears in the dispatch result. -/
theorem sendMessage_missing_credential (providers : List String)
    (apiKeys : String → Option String) (p : String)
    (h : apiKeys p = none ∨ apiKeys p = some "") :
    (∀ env, dispatchOne apiKeys env p = missingKeyResponse p) ∧
      (p ∈ providers → ∀ env, missingKeyResponse p ∈ sendMessage providers apiKeys env) := by
  have hf : jsFalsyString (apiKeys p) = true := by
    rcases h with h | h
    · simp [jsFalsyString, h]
    · rw [h]
      decide
  have hone : ∀ env, dispatchOne apiKeys env p = missingKeyResponse p := by
    intro env
    simp [dispatchOne, hf]
  refine ⟨hone, fun hp env => ?_⟩
  have := List.mem_map_of_mem (dispatchOne apiKeys env) hp
  rwa [hone env] at this

/-- C2 witness: with an empty credential map, the `openai` outcome is the
synthesized missing-credential failure for any provider behaviour. -/
theorem sendMessage_missing_credential_witness :
    ((fun _ : String => (none : Option String)) "openai" = none ∨
      (fun _ : String => (none : Option String)) "openai" = some "") ∧
      dispatchOne (fun _ => none) (fun _ => .err ⟨"TypeError", "fetch failed"⟩ 0) "openai"
        = missingKeyResponse "openai" :=
  ⟨Or.inl rfl,
    (sendMessage_missing_credential ["openai"] (fun _ => none) "openai" (Or.inl rfl)).1
      (fun _ => .err ⟨"TypeError", "fetch failed"⟩ 0)⟩

/-- C6 counterexample: an aborted in-flight call (a rejection named
`AbortError`) and an ordinary backend failure with the same message produce
literally identical outcomes, so the cancelled outcome cannot be told apart
from a provider-error outcome. -/
theorem cancelled_outcome_indistinguishable :
    dispatchOne (fun _ => some "sk-key")
        (fun _ => .err ⟨"AbortError", "The user aborted a request."⟩ 7) "openai"
      = dispatchOne (fun _ => some "sk-key")
        (fun _ => .err ⟨"Error", "The user aborted a request."⟩ 7) "openai" := by
  rfl

/-- C6 amended: when the cancellation signal aborts an in-flight call, the
rejection is caught by the same handler as any provider error: the outcome
is a failure `BatchResponse` keeping only the rejection message — the error
name is dropped, so the outcome is not structurally distinguishable from a
provider-error outcome with the same message. -/
theorem dispatch_abort_outcome_generic (apiKeys : String → Option String)
    (p n m : String) (t : Int) (hk : jsFalsyString (apiKeys p) = false) :
    dispatchOne apiKeys (fun _ => .err ⟨n, m⟩ t) p
      = { providerId := p, response := ""
          metadata := { tokensUsed := 0, responseTime := t, model := "", cost := 0 }
          error := some m } := by
  simp [dispatchOne, hk]

/-- C3: for a structurally valid candidate, a freshness warning is emitted
if and only if the elapsed time since `fetchedAt` exceeds 30 days. -/
theorem validate_freshness_boundary (now : Int) (r : DataResult)
    (h : r.metadata.columns.isSome) :
    (∃ n : Int, ("Data is " ++ toString n ++ " days old")
        ∈ (validateDataResult now r).warnings)
      ↔ 30 * msPerDay < now - r.metadata.fetchedAt := by
  obtain ⟨cols, hc⟩ := Option.isSome_iff_exists.mp h
  constructor
  · rintro ⟨n, hn⟩
    by_contra hlt
    simp only [validateDataResult, hc] at hn
    rw [if_neg hlt] at hn
    simp only [List.nil_append] at hn
    split at hn
    · simp only [List.mem_singleton] at hn
      exact freshness_msg_ne_empty_msg n hn
    · simp at hn
  · intro hlt
    simp only [validateDataResult, hc]
    rw [if_pos hlt]
    exact ⟨(now - r.metadata.fetchedAt).fdiv msPerDay, by simp⟩

/-- C3 witness: a result fetched 31 days ago warns, matching the boundary
condition at a concrete input. -/
theorem validate_freshness_boundary_witness :
    freshExample.metadata.columns.isSome = true ∧
      ((∃ n : Int, ("Data is " ++ toString n ++ " days old")
          ∈ (validateDataResult (31 * msPerDay) freshExample).warnings)
        ↔ 30 * msPerDay < 31 * msPerDay - freshExample.metadata.fetchedAt) :=
  ⟨rfl, validate_freshness_boundary (31 * msPerDay) freshExample rfl⟩

/-- C4 counterexample: a structurally valid candidate whose missing-value
rate is 50% — well above 10% — validates with an empty warning list, so no
missing-value-rate warning is emitted. -/
theorem validate_missing_rate_counterexample :
    (1 : ℚ) / 10 < specMissingValueFraction missingCellsExample ∧
      (validateDataResult 0 missingCellsExample).warnings = [] := by
  constructor
  · have hmiss : (missingCellsExample.data.map (fun row =>
        ((missingCellsExample.metadata.columns.getD []).filter
          (fun c => cellMissing (row.lookup c))).length)).sum = 1 := by decide
    have htot : missingCellsExample.data.length
        * (missingCellsExample.metadata.columns.getD []).length = 2 := by decide
    simp only [specMissingValueFraction, hmiss, htot]
    norm_num
  · rfl

/-- C4 amended: the semantic pass computes no missing-value-rate warning at
all — every warning it returns is either a freshness warning or the
empty-result warning. -/
theorem validate_warnings_only_two_kinds (now : Int) (r : DataResult) (w : String)
    (hw : w ∈ (validateDataResult now r).warnings) :
    (∃ n : Int, w = "Data is " ++ toString n ++ " days old")
      ∨ w = "Query returned no results" := by
  cases hc : r.metadata.columns with
  | none => simp [validateDataResult, hc] at hw
  | some cols =>
    simp only [validateDataResult, hc] at hw
    rcases List.mem_append.mp hw with h1 | h1
    · split at h1
      · simp only [List.mem_singleton] at h1
        exact Or.inl ⟨_, h1⟩
      · simp at h1
    · split at h1
      · simp only [List.mem_singleton] at h1
        exact Or.inr h1
      · simp at h1

/-- C4 amended witness: the one warning of a 31-day-old result is of the
freshness kind. -/
theorem validate_warnings_only_two_kinds_witness :
    ("Data is 31 days old" ∈ (validateDataResult (31 * msPerDay) missingCellsExample).warnings) ∧
      ((∃ n : Int, "Data is 31 days old" = "Data is " ++ toString n ++ " days old")
        ∨ "Data is 31 days old" = "Query returned no results") :=
  ⟨by decide,
    validate_warnings_only_two_kinds (31 * msPerDay) missingCellsExample
      "Data is 31 days old" (by decide)⟩

/-- C6 amended witness: a concrete aborted call surfaces as the generic
failure outcome carrying only the abort message. -/
theorem dispatch_abort_outcome_generic_witness :
    jsFalsyString ((fun _ : String => some "sk-key") "openai") = false ∧
      dispatchOne (fun _ => some "sk-key")
          (fun _ => .err ⟨"AbortError", "The user aborted a request."⟩ 7) "openai"
        = { providerId := "openai", response := ""
            metadata := { tokensUsed := 0, responseTime := 7, model := "", cost := 0 }
            error := some "The user aborted a request." } :=
  ⟨rfl,
    dispatch_abort_outcome_generic (fun _ => some "sk-key") "openai" "AbortError"
      "The user aborted a request." 7 rfl⟩

/-- C5: a source whose search rejects contributes nothing to the merged
result and raises nothing, and the other sources' matches are returned
unchanged, concatenated in registry iteration order. -/
theorem searchAll_fault_isolation (pre post : List SourceAdapter) (bad : SourceAdapter)
    (q : String) (e : JsError) (hbad : bad.search q = .error e) :
    searchAllSources (pre ++ bad :: post) q
      = searchAllSources pre q ++ searchAllSources post q := by
  simp [searchAllSources, List.map_append, List.filterMap_append, List.filterMap_cons,
    hbad, Except.toOption, List.flatten_append]

/-- C5 witness: a three-source registry whose middle source always rejects
merges exactly the flanking sources' matches. -/
theorem searchAll_fault_isolation_witness :
    (SourceAdapter.mk fun _ => .error ⟨"Error", "FRED API error: 500"⟩).search "gdp"
        = Except.error ⟨"Error", "FRED API error: 500"⟩ ∧
      searchAllSources
          ([⟨fun _ => .ok [⟨"GDP", "Gross Domestic Product", "US GDP", "census",
              .government, none⟩]⟩]
            ++ (⟨fun _ => .error ⟨"Error", "FRED API error: 500"⟩⟩ : SourceAdapter)
              :: [⟨fun _ => .ok [⟨"SP.POP.TOTL", "Population, total", "", "worldbank",
                .international, none⟩]⟩]) "gdp"
        = searchAllSources [⟨fun _ => .ok [⟨"GDP", "Gross Domestic Product", "US GDP",
            "census", .government, none⟩]⟩] "gdp"
          ++ searchAllSources [⟨fun _ => .ok [⟨"SP.POP.TOTL", "Population, total", "",
            "worldbank", .international, none⟩]⟩] "gdp" :=
  ⟨rfl, searchAll_fault_isolation _ _ _ "gdp" _ rfl⟩

/-- C9: when the remote search endpoint fails — a rejected request for
either adapter, or a non-success response — the adapter raises nothing and
returns the local case-insensitive substring matches over its catalog. -/
theorem search_remote_failure_local_fallback (q : String) (e : JsError)
    (fr : FredSearchResp) (wr : WBSearchResp)
    (hfr : fr.ok = false) (hwr : wr.ok = false) :
    fredSearch (.error e) q = fredLocalSearch q ∧
      fredSearch (.ok fr) q = fredLocalSearch q ∧
      wbSearch (.error e) q = wbLocalSearch q ∧
      wbSearch (.ok wr) q = wbLocalSearch q := by
  refine ⟨rfl, ?_, rfl, ?_⟩ <;> simp [fredSearch, wbSearch, hfr, hwr]

/-- C9 witness: concrete rejected and non-success remote searches fall back
to the local catalog matches. -/
theorem search_remote_failure_local_fallback_witness :
    (FredSearchResp.mk false none).ok = false ∧ (WBSearchResp.mk false none).ok = false ∧
      fredSearch (.error ⟨"TypeError", "fetch failed"⟩) "gdp" = fredLocalSearch "gdp" ∧
      fredSearch (.ok ⟨false, none⟩) "gdp" = fredLocalSearch "gdp" ∧
      wbSearch (.error ⟨"TypeError", "fetch failed"⟩) "gdp" = wbLocalSearch "gdp" ∧
      wbSearch (.ok ⟨false, none⟩) "gdp" = wbLocalSearch "gdp" :=
  ⟨rfl, rfl,
    (search_remote_failure_local_fallback "gdp" ⟨"TypeError", "fetch failed"⟩
      ⟨false, none⟩ ⟨false, none⟩ rfl rfl).1,
    (search_remote_failure_local_fallback "gdp" ⟨"TypeError", "fetch failed"⟩
      ⟨false, none⟩ ⟨false, none⟩ rfl rfl).2.1,
    (search_remote_failure_local_fallback "gdp" ⟨"TypeError", "fetch failed"⟩
      ⟨false, none⟩ ⟨false, none⟩ rfl rfl).2.2.1,
    (search_remote_failure_local_fallback "gdp" ⟨"TypeError", "fetch failed"⟩
      ⟨false, none⟩ ⟨false, none⟩ rfl rfl).2.2.2⟩

/-- C7: at the failing input — a fetch with no API key supplied — the
stored source URL is `[API_KEY]` prepended to the request URL (JavaScript
`replace` with an empty pattern inserts at position 0), not the original
URL unchanged as the claim states. -/
theorem census_sourceUrl_prefixed_without_key :
    censusSourceUrl censusNoKeyUrl none = "[API_KEY]" ++ censusNoKeyUrl ∧
      censusSourceUrl censusNoKeyUrl none ≠ censusNoKeyUrl ∧
      (censusTransform 0 "acs/acs1" censusNoKeyUrl none
          [["NAME", "B01001_001E"], ["Alabama", "5024279"]]).metadata.sourceUrl
        = some ("[API_KEY]" ++ censusNoKeyUrl) := by
  refine ⟨rfl, ?_, rfl⟩
  decide

/-- C8 counterexample: a FRED observation whose raw value is the
non-numeric, non-dot string `abc` yields a NaN number cell — neither the
original string nor null. -/
theorem fred_nonnumeric_value_becomes_nan :
    (fredTransform 0 "TEST" [⟨"1999-01-01", "abc"⟩] none).data
        = [[("date", .str "1999-01-01"), ("value", Cell.nan), ("seriesId", .str "TEST")]] ∧
      jsNumber? "abc" = none ∧
      Cell.nan ≠ .str "abc" ∧ Cell.nan ≠ .null := by
  exact ⟨rfl, by decide, by decide, by decide⟩

/-- C8 amended: in the Census adapter a cell passing the numeric test is
coerced to that number and any other present cell stays the original
string (an absent cell is undefined); in the FRED adapter the date and
series-id cells stay strings while the value cell is null exactly for the
source value `.`, the coerced number for a numeric-looking value, and NaN —
not a string or null — otherwise. -/
theorem cell_coercion_amended :
    (∀ v n, jsNumber? v = some n → censusCell (some v) = .num n) ∧
      (∀ v, jsNumber? v = none → censusCell (some v) = .str v) ∧
      censusCell none = .undef ∧
      (∀ sid obs, fredRow sid obs
        = [("date", .str obs.date), ("value", fredValueCell obs.value),
            ("seriesId", .str sid)]) ∧
      fredValueCell "." = .null ∧
      (∀ v n, v ≠ "." → jsNumber? v = some n → fredValueCell v = .num n) ∧
      (∀ v, v ≠ "." → jsNumber? v = none → fredValueCell v = .nan) := by
  refine ⟨?_, ?_, rfl, fun sid obs => rfl, rfl, ?_, ?_⟩
  · intro v n h
    simp [censusCell, h]
  · intro v h
    simp [censusCell, h]
  · intro v n hne h
    simp [fredValueCell, hne, h]
  · intro v hne h
    simp [fredValueCell, hne, h]

/-- C8 amended witness: the numeric-looking cell `42` is coerced to the
number 42. -/
theorem cell_coercion_amended_witness :
    jsNumber? "42" = some (.finite 42) ∧ censusCell (some "42") = .num (.finite 42) :=
  ⟨by decide, cell_coercion_amended.1 "42" (.finite 42) (by decide)⟩

/-- C10: for every successful fetch of each of the three adapters —
including the World Bank zero-row case — the recorded row count equals the
length of the data row array. -/
theorem rowCount_matches_data_length :
    (∀ now d url key raw, (censusTransform now d url key raw).metadata.rowCount
        = (censusTransform now d url key raw).data.length) ∧
      (∀ now sid obs freq, (fredTransform now sid obs freq).metadata.rowCount
        = (fredTransform now sid obs freq).data.length) ∧
      (∀ now ind url raw, (wbTransform now ind url raw).metadata.rowCount
        = (wbTransform now ind url raw).data.length) := by
  refine ⟨?_, fun now sid obs freq => rfl, ?_⟩
  · intro now d url key raw
    cases raw <;> rfl
  · intro now ind url raw
    cases raw with
    | none => rfl
    | some items =>
      by_cases h : items.length = 0 <;> simp [wbTransform, h]

end StatMiner
